import Mathlib

/-!
Verification of the compiler-IDE repository (two source files:
src/ide_compiler.py defining class CompilerApp, and src/main.py defining
class CompilerIDEApp) against its natural-language specification.

The development shallowly embeds the background task execution and
reporting subsystem of both applications:

* a path model (SPath) capturing the pieces of pathlib.Path the code uses
  (parent directory, stem, suffix);
* the language resolver (CompilerApp._detect_language and
  CodeEditor.set_language_from_path);
* the compile and run workers (CompilerApp._compile_worker,
  CompilerApp._run_worker, CompilerIDEApp._compile, CompilerIDEApp._run)
  as trace-producing functions over an oracle describing the external
  world (tool presence on PATH, artifact existence at each stat call,
  spawn results);
* the process executor (CompilerApp._execute_command,
  CompilerIDEApp._handle_completed_process);
* the task dispatcher (CompilerApp._run_background /
  CompilerApp._task_wrapper and CompilerIDEApp._run_async) as state
  transformers on the running flag / toolbar state;
* the save-before-action guards and the save operations;
* the output sink (ConsolePane write / flush queue) as a FIFO queue
  machine.
-/

namespace Compiler

/-! Character-level models of the Python string primitives the source
uses (str.lower, str.isspace, str.strip, str.endswith): ASCII-exact and
fully reducible, so concrete traces can be evaluated in proofs. -/

/-- Python str.lower on one character (ASCII range, which covers every
extension string the code compares against). -/
def pyLowerChar (c : Char) : Char :=
  if 'A' ≤ c ∧ c ≤ 'Z' then Char.ofNat (c.toNat + 32) else c

/-- Python str.lower. -/
def pyLower (s : String) : String := ⟨s.data.map pyLowerChar⟩

/-- Python str.isspace for one character. -/
def pyIsSpace (c : Char) : Bool :=
  c = ' ' ∨ c = '\t' ∨ c = '\n' ∨ c = '\r' ∨ c = '\x0b' ∨ c = '\x0c'

/-- Python str.strip(): whitespace removed from both ends. -/
def pyStrip (s : String) : String :=
  ⟨((s.data.dropWhile pyIsSpace).reverse.dropWhile pyIsSpace).reverse⟩

/-- Python s.endswith(newline): the last character is a newline. -/
def lastIsNewline (s : String) : Bool := s.data.getLast? = some '\n'

/-- The fragment of pathlib.Path the workers consume: the parent
directory rendered as a string, the stem, and the suffix (extension with
leading dot, empty when there is none). -/
structure SPath where
  parent : String
  stem : String
  suffix : String
deriving DecidableEq

/-- path.name: stem plus suffix. -/
def SPath.name (p : SPath) : String := p.stem ++ p.suffix

/-- str(path): the parent joined with the name. -/
def SPath.render (p : SPath) : String := p.parent ++ "/" ++ p.name

/-- str(path.parent / "build"): the build subdirectory used by
CompilerApp for C/C++ artifacts. -/
def buildDirOf (p : SPath) : String := p.parent ++ "/build"

/-- str(path.parent / "build" / path.stem): the C/C++ artifact path in
CompilerApp. -/
def artifactOf (p : SPath) : String := buildDirOf p ++ "/" ++ p.stem

/-- str(path.with_suffix("")): the in-place C/C++ artifact path used by
CompilerIDEApp. -/
def exeOf (p : SPath) : String := p.parent ++ "/" ++ p.stem

/-- The language tags produced by the resolvers. -/
inductive Lang
  | python
  | c
  | cpp
  | java
deriving DecidableEq

/-- CompilerApp._detect_language: keyed on the lowercased suffix;
returns none for an unknown extension (the Python code returns None). -/
def detectLanguage (suffix : String) : Option Lang :=
  let ext := pyLower suffix
  if ext = ".py" then some .python
  else if ext = ".c" ∨ ext = ".h" then some .c
  else if ext = ".cpp" ∨ ext = ".cc" ∨ ext = ".cxx" ∨ ext = ".hpp" then some .cpp
  else if ext = ".java" then some .java
  else none

/-- CodeEditor.set_language_from_path, restricted to the extension
dispatch (the widget side effects carry no verification content). -/
def editorLanguage (suffix : String) : Option Lang :=
  let ext := pyLower suffix
  if ext = ".py" then some .python
  else if ext = ".c" ∨ ext = ".h" then some .c
  else if ext = ".cpp" ∨ ext = ".cc" ∨ ext = ".cxx" ∨ ext = ".hpp" then some .cpp
  else if ext = ".java" then some .java
  else none

/-! ### CompilerApp (src/ide_compiler.py) workers as trace functions -/

/-- Observable actions of a CompilerApp worker: console writes (text with
its tag; ConsolePane.writeline appends a newline to the text before
queueing), creation of the build directory, and a call to
_execute_command with an argument vector and a working directory. -/
inductive Event
  | compileCall
  | write (text tag : String)
  | mkdirBuild (dir : String)
  | execute (cmd : List String) (cwd : String)
deriving DecidableEq

/-- ConsolePane.writeline text tag = write (text ++ newline) tag. -/
def lineEv (text tag : String) : Event := .write (text ++ "\n") tag

/-- Oracle for one worker invocation: shutil.which results for each tool
name, the two artifact-existence stat calls the run worker can make (the
first before the optional compile step, the second after it), and the
path of the interpreter running the application (sys.executable). -/
structure World where
  which : String → Bool
  exists1 : Bool
  exists2 : Bool
  pyExe : String

/-- CompilerApp._compile_worker as the sequence of observable actions it
performs, given the oracle. Mirrors the source dispatch on
_detect_language.  The leading compileCall marker records control
entering _compile_worker (the function prints its banner exactly once on
entry), so that compile-step invocations can be counted in a trace. -/
def compileWorker (w : World) (p : SPath) : List Event :=
  [Event.compileCall,
   lineEv "========== Compile ==========" "system",
   lineEv ("File: " ++ p.render) "system"] ++
  match detectLanguage p.suffix with
  | some .python =>
      [.execute [w.pyExe, "-m", "py_compile", p.render] p.parent]
  | some .c =>
      if w.which "gcc" = false then
        [lineEv "gcc not found in PATH" "stderr"]
      else
        [.mkdirBuild (buildDirOf p),
         .execute ["gcc", p.render, "-O2", "-o", artifactOf p] p.parent]
  | some .cpp =>
      if w.which "g++" = false then
        [lineEv "g++ not found in PATH" "stderr"]
      else
        [.mkdirBuild (buildDirOf p),
         .execute ["g++", p.render, "-O2", "-o", artifactOf p] p.parent]
  | some .java =>
      if w.which "javac" = false then
        [lineEv "javac not found in PATH" "stderr"]
      else
        [.execute ["javac", p.render] p.parent]
  | none =>
      [lineEv "Unsupported file type for compile." "stderr"]

/-- CompilerApp._run_worker as the sequence of observable actions.  For
C/C++ the artifact existence is stat-ed twice in the source (once to
decide whether to compile first, once to decide whether to run); the
oracle fields exists1 and exists2 are those two answers.  The Java
branch checks the class file once (exists1) and — as in the source —
invokes the java command with no second existence check. -/
def runWorker (w : World) (p : SPath) : List Event :=
  [lineEv "========== Run ==========" "system",
   lineEv ("File: " ++ p.render) "system"] ++
  match detectLanguage p.suffix with
  | some .python =>
      [.execute [w.pyExe, p.render] p.parent]
  | some .c =>
      (if w.exists1 = false then
        lineEv "Binary not found. Compiling first..." "system" :: compileWorker w p
       else []) ++
      (if w.exists2 then [.execute [artifactOf p] (buildDirOf p)] else [])
  | some .cpp =>
      (if w.exists1 = false then
        lineEv "Binary not found. Compiling first..." "system" :: compileWorker w p
       else []) ++
      (if w.exists2 then [.execute [artifactOf p] (buildDirOf p)] else [])
  | some .java =>
      if w.which "java" = false then
        [lineEv "java runtime not found in PATH" "stderr"]
      else
        (if w.exists1 = false then
          lineEv "Class not found. Compiling first..." "system" :: compileWorker w p
         else []) ++
        [.execute ["java", "-cp", p.parent, p.stem] p.parent]
  | none =>
      [lineEv "Unsupported file type for run." "stderr"]

/-- Number of compile-step invocations recorded in a trace. -/
def compileCount (tr : List Event) : Nat := tr.count .compileCall

/-! ### CompilerApp._execute_command (the process executor) -/

/-- The record subprocess.run returns: captured stdout, stderr and the
raw child exit code. -/
structure ProcResult where
  stdout : String
  stderr : String
  code : Int
deriving DecidableEq

/-- CompilerApp._quote_arg: wrap the argument in double quotes when it
contains whitespace. -/
def quoteArg (a : String) : String :=
  if a.data.any pyIsSpace then "\"" ++ a ++ "\"" else a

/-- CompilerApp._execute_command: echoes the command, then either
surfaces the captured streams and the raw exit code (normal completion,
any exit code) or, when subprocess.run itself raised (spawn failure),
writes a distinct execution-error line.  Total: nothing propagates past
this boundary. -/
def executeCommand (res : Except String ProcResult) (cmd : List String) :
    List Event :=
  lineEv ("$ " ++ String.intercalate " " (cmd.map quoteArg)) "system" ::
  match res with
  | .ok r =>
      (if r.stdout ≠ "" then [Event.write r.stdout "stdout"] else []) ++
      (if r.stderr ≠ "" then [Event.write r.stderr "stderr"] else []) ++
      [lineEv ("[exit " ++ toString r.code ++ "]") "system"]
  | .error e =>
      [lineEv ("Execution failed: " ++ e) "stderr"]

/-! ### CompilerIDEApp (src/main.py) workers as trace functions -/

/-- Observable actions of a CompilerIDEApp worker: clearing the console,
appending text to it (this console is untagged), and a subprocess.run
call with an argument vector and a working directory. -/
inductive MEvent
  | compileCall
  | clear
  | append (text : String)
  | exec (cmd : List String) (cwd : String)
deriving DecidableEq

/-- Oracle for one CompilerIDEApp worker invocation: shutil.which
results, the two artifact stat calls, the result (or spawn-time
exception text) of each subprocess.run keyed by its argument vector,
sys.executable, and the os.path.relpath rendering against base_dir used
only for display. -/
structure MEnv where
  which : String → Bool
  spawn : List String → Except String ProcResult
  exists1 : Bool
  exists2 : Bool
  pyExe : String
  rel : SPath → String

/-- CompilerIDEApp._handle_completed_process: echo captured streams and
the exit code line (note the format: "[exit code N]"). -/
def handleCompleted (r : ProcResult) : List MEvent :=
  (if r.stdout ≠ "" then [MEvent.append r.stdout] else []) ++
  (if r.stderr ≠ "" then [MEvent.append r.stderr] else []) ++
  [MEvent.append ("\n[exit code " ++ toString r.code ++ "]\n")]

/-- One subprocess.run call inside the try block of _compile or _run: the
spawn is attempted; a spawn-level exception falls to the except branch
("Error: ...") which ends the function body, otherwise the completed
process is handled and the remaining statements (rest) execute. -/
def runProc (env : MEnv) (cmd : List String) (cwd : String)
    (rest : ProcResult → List MEvent) : List MEvent :=
  MEvent.exec cmd cwd ::
  match env.spawn cmd with
  | .error e => [.append ("Error: " ++ e ++ "\n")]
  | .ok r => handleCompleted r ++ rest r

/-- The shell-echo line appended before each spawn. -/
def dollarLine (cmd : List String) : MEvent :=
  .append ("$ " ++ String.intercalate " " cmd ++ "\n")

/-- CompilerIDEApp._compile as the sequence of observable actions.
Dispatch is inline on the lowercased suffix; artifacts are placed
in-place (path.with_suffix("")).  The leading compileCall marker records
control entering _compile, so compile-step invocations can be counted in
a trace. -/
def compileIde (env : MEnv) (p : SPath) : List MEvent :=
  [MEvent.compileCall, .clear,
   .append ("Compiling " ++ env.rel p ++ "\n\n")] ++
  (let ext := pyLower p.suffix
   if ext = ".py" then
     let cmd := [env.pyExe, "-m", "py_compile", p.name]
     dollarLine cmd ::
       runProc env cmd p.parent (fun r =>
         if r.code = 0 then [.append "\nPython byte-compile successful.\n"]
         else [])
   else if ext = ".c" then
     if env.which "gcc" = false then
       [.append "gcc not found. Please install GCC.\n"]
     else
       let cmd := ["gcc", "-O2", "-Wall", "-o", p.stem, p.name]
       dollarLine cmd :: runProc env cmd p.parent (fun _ => [])
   else if ext = ".cpp" ∨ ext = ".cc" ∨ ext = ".cxx" then
     if env.which "g++" = false then
       [.append "g++ not found. Please install G++.\n"]
     else
       let cmd := ["g++", "-std=c++17", "-O2", "-Wall", "-o", p.stem, p.name]
       dollarLine cmd :: runProc env cmd p.parent (fun _ => [])
   else if ext = ".java" then
     if env.which "javac" = false then
       [.append "javac not found. Please install JDK.\n"]
     else
       let cmd := ["javac", p.name]
       dollarLine cmd :: runProc env cmd p.parent (fun _ => [])
   else
     [.append ("Unsupported file type: " ++ ext ++ "\n")])

/-- CompilerIDEApp._run as the sequence of observable actions.  For
C/C++ and Java the artifact is stat-ed once before the optional compile
step (exists1) and once after it (exists2); the run spawn only happens
when the second stat succeeds. -/
def runIde (env : MEnv) (p : SPath) : List MEvent :=
  [MEvent.clear, .append ("Running " ++ env.rel p ++ "\n\n")] ++
  (let ext := pyLower p.suffix
   if ext = ".py" then
     let cmd := [env.pyExe, p.name]
     dollarLine cmd :: runProc env cmd p.parent (fun _ => [])
   else if ext = ".c" then
     (if env.exists1 = false then
        MEvent.append "Executable not found. Compiling first...\n\n" ::
          compileIde env p
      else []) ++
     (if env.exists2 then
        let cmd := [exeOf p]
        dollarLine cmd :: runProc env cmd p.parent (fun _ => [])
      else [])
   else if ext = ".cpp" ∨ ext = ".cc" ∨ ext = ".cxx" then
     (if env.exists1 = false then
        MEvent.append "Executable not found. Compiling first...\n\n" ::
          compileIde env p
      else []) ++
     (if env.exists2 then
        let cmd := [exeOf p]
        dollarLine cmd :: runProc env cmd p.parent (fun _ => [])
      else [])
   else if ext = ".java" then
     if env.which "java" = false then
       [.append "java runtime not found. Please install JDK/JRE.\n"]
     else
       (if env.exists1 = false then
          MEvent.append "Class not found. Compiling first...\n\n" ::
            compileIde env p
        else []) ++
       (if env.exists2 then
          let cmd := ["java", "-cp", ".", p.stem]
          dollarLine cmd :: runProc env cmd p.parent (fun _ => [])
        else [])
   else
     [.append ("Unsupported file type: " ++ ext ++ "\n")])

/-- Number of compile-step invocations recorded in a CompilerIDEApp
trace. -/
def mCompileCount (tr : List MEvent) : Nat := tr.count .compileCall

/-! ### Task dispatcher (CompilerApp._run_background / _task_wrapper,
CompilerIDEApp._run_async) -/

/-- The dispatcher-visible state of CompilerApp: the running flag, the
common state of the four toolbar buttons, and the status-bar text. -/
structure DState where
  running : Bool
  toolbarEnabled : Bool
  status : String
deriving DecidableEq

/-- CompilerApp._set_running: sets the flag, disables or enables the
toolbar buttons, and updates the status text — always all three
together. -/
def setRunning (b : Bool) : DState :=
  { running := b
    toolbarEnabled := !b
    status := if b then "Running..." else "Ready" }

/-- CompilerApp._run_background: when the running flag is set the call
returns immediately (request rejected, no thread started — the Bool
records whether a task was started); otherwise the state becomes Busy
and a worker thread is started. -/
def runBackground (s : DState) : DState × Bool :=
  if s.running then (s, false) else (setRunning true, true)

/-- How a background task body ends: normal return (this includes a
child process exiting non-zero, which _execute_command absorbs), or an
exception escaping the body. -/
inductive Outcome
  | completed
  | raised (msg : String)
deriving DecidableEq

/-- CompilerApp._task_wrapper: the except branch turns an escaping
exception into a console line; the finally branch unconditionally
schedules _set_running False on the UI thread.  Returns the full console
trace and the dispatcher state once that scheduled call has run. -/
def taskWrapper (o : Outcome) (bodyTrace : List Event) :
    List Event × DState :=
  match o with
  | .completed => (bodyTrace, setRunning false)
  | .raised m =>
      (bodyTrace ++ [lineEv ("Error: " ++ m) "stderr"], setRunning false)

/-- The dispatcher-visible state of CompilerIDEApp: the common state of
the four toolbar buttons and the status text (this application keeps no
separate running flag; the disabled buttons are its Busy guard). -/
structure IState where
  toolbarEnabled : Bool
  status : String
deriving DecidableEq

/-- CompilerIDEApp._run_async before starting the thread: status shows
the task name and the toolbar is disabled. -/
def runAsyncStart (taskName : String) : IState :=
  { toolbarEnabled := false, status := taskName ++ "…" }

/-- CompilerIDEApp._run_async task_wrapper: the finally branch
unconditionally schedules status Ready and toolbar re-enable, whatever
the task body did. -/
def runAsyncFinish (_o : Outcome) : IState :=
  { toolbarEnabled := true, status := "Ready" }

/-- A toolbar button press in CompilerIDEApp: a disabled Tk button does
not invoke its command, so a request arriving while the toolbar is
disabled leaves the state unchanged and starts nothing. -/
def buttonRequest (s : IState) (taskName : String) : IState × Bool :=
  if s.toolbarEnabled then (runAsyncStart taskName, true) else (s, false)

/-! ### Save guards and dispatch of the compile/run actions -/

/-- The three answers of messagebox.askyesnocancel. -/
inductive SaveChoice
  | yes
  | no
  | cancel
deriving DecidableEq

/-- CompilerApp._ensure_save_before_action: when the editor is dirty the
user is prompted; cancel refuses the action, yes saves first, no
proceeds without saving.  Returns (proceed, saved). -/
def ensureSaveBeforeAction (dirty : Bool) (choice : SaveChoice) :
    Bool × Bool :=
  if dirty then
    match choice with
    | .cancel => (false, false)
    | .yes => (true, true)
    | .no => (true, false)
  else (true, false)

/-- CompilerApp._action_run: the save guard runs synchronously first;
only then is the active path checked and _run_background consulted.  The
result records the dispatcher state and, when a task was started, the
worker trace it will produce (none = no process spawned, no thread
started). -/
def actionRun (s : DState) (dirty : Bool) (active : Option SPath)
    (choice : SaveChoice) (w : World) : DState × Option (List Event) :=
  if (ensureSaveBeforeAction dirty choice).fst = false then (s, none)
  else
    match active with
    | none => (s, none)
    | some p =>
        let sb := runBackground s
        (sb.fst, if sb.snd then some (runWorker w p) else none)

/-- CompilerApp._action_compile, same structure with the compile
worker. -/
def actionCompile (s : DState) (dirty : Bool) (active : Option SPath)
    (choice : SaveChoice) (w : World) : DState × Option (List Event) :=
  if (ensureSaveBeforeAction dirty choice).fst = false then (s, none)
  else
    match active with
    | none => (s, none)
    | some p =>
        let sb := runBackground s
        (sb.fst, if sb.snd then some (compileWorker w p) else none)

/-- CompilerIDEApp._ensure_current_file_saved: no current file refuses;
a modified buffer prompts with askyesno — yes saves and proceeds, no
refuses.  Returns (proceed, saved). -/
def ensureCurrentFileSaved (hasFile modified : Bool) (saveAnswer : Bool) :
    Bool × Bool :=
  if hasFile = false then (false, false)
  else if modified then
    (if saveAnswer then (true, true) else (false, false))
  else (true, false)

/-- CompilerIDEApp.run_current_file: guard first, then dispatch the run
worker through _run_async. -/
def runCurrentFile (s : IState) (hasFile modified saveAnswer : Bool)
    (env : MEnv) (p : SPath) : IState × Option (List MEvent) :=
  if (ensureCurrentFileSaved hasFile modified saveAnswer).fst = false then
    (s, none)
  else (runAsyncStart "Running", some (runIde env p))

/-! ### Output sink (ConsolePane) and the UI-thread hand-off -/

/-- ConsolePane's cross-thread state: the pending queue (a FIFO
queue.Queue) and the rendered text surface, as the list of tagged chunks
in render order. -/
structure ConsoleState where
  queue : List (String × String)
  surface : List (String × String)
deriving DecidableEq

/-- ConsolePane.write: enqueue the tagged chunk; callable from any
thread, never touches the surface directly. -/
def consoleWrite (s : ConsoleState) (text tag : String) : ConsoleState :=
  { s with queue := s.queue ++ [(text, tag)] }

/-- ConsolePane._flush_queue: drain the whole queue in FIFO order onto
the surface (runs on the UI thread on a fixed interval). -/
def consoleFlush (s : ConsoleState) : ConsoleState :=
  { queue := [], surface := s.surface ++ s.queue }

/-- The chunks a reader will eventually see, in order: what is rendered
plus what is still queued. -/
def delivered (s : ConsoleState) : List (String × String) :=
  s.surface ++ s.queue

/-- An interleaving of sink operations: producer writes and UI-thread
flush ticks. -/
inductive SinkOp
  | write (text tag : String)
  | flush
deriving DecidableEq

/-- Apply one sink operation. -/
def applySinkOp (s : ConsoleState) : SinkOp → ConsoleState
  | .write t g => consoleWrite s t g
  | .flush => consoleFlush s

/-- Apply a sequence of sink operations left to right. -/
def applySinkOps (s : ConsoleState) (ops : List SinkOp) : ConsoleState :=
  ops.foldl applySinkOp s

/-- CompilerIDEApp._call_ui from a background thread: root.after(0, f)
appends the callable to the Tk event queue, which executes same-delay
timer events in creation order (FIFO). -/
def callUiEnqueue (pending : List String) (text : String) : List String :=
  pending ++ [text]

/-! ### Save operations (CodeEditor.save_file,
CompilerIDEApp.save_current_file) -/

/-- The text of a Tk Text widget at index "end-1c": exactly the document
content, without the implicit final newline Tk maintains.  This is
CodeEditor.get_content. -/
def editorGetContent (content : String) : String := content

/-- The text of a Tk Text widget at index END: the document content plus
the implicit final newline. -/
def tkGetEnd (content : String) : String := content ++ "\n"

/-- CodeEditor.save_file: the bytes written are get_content, UTF-8. -/
def saveFileEditor (content : String) : String := editorGetContent content

/-- CompilerIDEApp.save_current_file: the bytes written are
editor.get("1.0", END) — the content plus the trailing Tk newline —
except that a chunk that ends in a newline and strips to nothing is
replaced by the empty string. -/
def saveCurrentFileIde (content : String) : String :=
  let c := tkGetEnd content
  if lastIsNewline c && pyStrip c == "" then "" else c

/-! ## Shared helper lemmas -/

/-- _handle_completed_process only appends text: it never spawns. -/
lemma exec_not_mem_handleCompleted (r : ProcResult) (c2 : List String)
    (w2 : String) : MEvent.exec c2 w2 ∉ handleCompleted r := by
  simp only [handleCompleted]
  split_ifs <;> simp

/-- _handle_completed_process never enters _compile. -/
lemma compileCall_not_mem_handleCompleted (r : ProcResult) :
    MEvent.compileCall ∉ handleCompleted r := by
  simp only [handleCompleted]
  split_ifs <;> simp

/-- _handle_completed_process contributes no compile-step invocation. -/
lemma count_compileCall_handleCompleted (r : ProcResult) :
    (handleCompleted r).count MEvent.compileCall = 0 := by
  simp [List.count_eq_zero, compileCall_not_mem_handleCompleted]

/-- A spawn with empty continuation emits exactly the exec it was given
(plus appends): any exec event in it is that spawn. -/
lemma exec_mem_runProc_nil (env : MEnv) (cmd : List String) (cwd : String)
    (c2 : List String) (w2 : String)
    (h : MEvent.exec c2 w2 ∈ runProc env cmd cwd (fun _ => [])) :
    c2 = cmd ∧ w2 = cwd := by
  rcases hs : env.spawn cmd with e | r <;>
    simp [runProc, hs, exec_not_mem_handleCompleted] at h <;> exact h

/-- Same for the Python compile continuation (its success line is an
append). -/
lemma exec_mem_runProc_py (env : MEnv) (cmd : List String) (cwd : String)
    (c2 : List String) (w2 : String)
    (h : MEvent.exec c2 w2 ∈ runProc env cmd cwd (fun r =>
      if r.code = 0 then [MEvent.append "\nPython byte-compile successful.\n"]
      else [])) :
    c2 = cmd ∧ w2 = cwd := by
  rcases hs : env.spawn cmd with e | r <;>
    rw [runProc, hs] at h <;>
    rw [List.mem_cons] at h <;>
    rcases h with h | h
  · exact ⟨(MEvent.exec.injEq _ _ _ _).mp h |>.1,
      (MEvent.exec.injEq _ _ _ _).mp h |>.2⟩
  · simp at h
  · exact ⟨(MEvent.exec.injEq _ _ _ _).mp h |>.1,
      (MEvent.exec.injEq _ _ _ _).mp h |>.2⟩
  · rw [List.mem_append] at h
    rcases h with h | h
    · exact absurd h (exec_not_mem_handleCompleted r c2 w2)
    · split_ifs at h <;> simp at h

/-- A spawn with empty continuation never enters _compile. -/
lemma compileCall_not_mem_runProc_nil (env : MEnv) (cmd : List String)
    (cwd : String) :
    MEvent.compileCall ∉ runProc env cmd cwd (fun _ => []) := by
  rcases hs : env.spawn cmd with e | r <;>
    simp [runProc, hs, compileCall_not_mem_handleCompleted]

/-- Same for the Python compile continuation. -/
lemma compileCall_not_mem_runProc_py (env : MEnv) (cmd : List String)
    (cwd : String) :
    MEvent.compileCall ∉ runProc env cmd cwd (fun r =>
      if r.code = 0 then [MEvent.append "\nPython byte-compile successful.\n"]
      else []) := by
  intro h
  rw [runProc] at h
  rcases hs : env.spawn cmd with e | r <;> rw [hs] at h <;>
    rw [List.mem_cons] at h <;> rcases h with h | h
  · simp at h
  · simp at h
  · simp at h
  · rw [List.mem_append] at h
    rcases h with h | h
    · exact absurd h (compileCall_not_mem_handleCompleted r)
    · split_ifs at h <;> simp at h

/-! ## Concrete fixtures used by witnesses and counterexamples -/

/-- A world with every tool on PATH and the artifact absent at both stat
calls. -/
def wAll : World := ⟨fun _ => true, false, false, "python3"⟩

/-- A world with every tool on PATH and the artifact present at both
stat calls. -/
def wBuilt : World := ⟨fun _ => true, true, true, "python3"⟩

/-- A world with no tool on PATH and the artifact absent. -/
def wBare : World := ⟨fun _ => false, false, false, "python3"⟩

/-- A CompilerIDEApp environment where every tool is present, the
artifact is absent at both stat calls, and every spawn fails at the OS
level with a missing-executable error. -/
def envSpawnFail : MEnv :=
  ⟨fun _ => true, fun _ => Except.error "No such file or directory",
   false, false, "python3", fun p => p.name⟩

/-- A CompilerIDEApp environment with no tool on PATH and the artifact
absent; spawns succeed trivially. -/
def envBare : MEnv :=
  ⟨fun _ => false, fun _ => Except.ok ⟨"", "", 0⟩,
   false, false, "python3", fun p => p.name⟩

/-- A concrete Java source path. -/
def pJava : SPath := ⟨"/w", "Main", ".java"⟩

/-- A concrete C source path. -/
def pC : SPath := ⟨"/w", "a", ".c"⟩

/-! ## Claim C3 -/

/-- C3, counterexample: the claim states that every extension outside
the groups .py / .c / .cpp,.cc,.cxx / .java resolves to not-supported,
but CompilerApp._detect_language maps ".h" (outside those groups) to the
C toolchain. -/
theorem claim_C3_counterexample :
    detectLanguage ".h" = some Lang.c ∧
    (".h" : String) ∉ ([".py", ".c", ".cpp", ".cc", ".cxx", ".java"] : List String) := by
  exact ⟨by decide, by decide⟩

/-- C3, amended: the resolver is a pure mapping on the lowercased
extension sending .py to Python, .c to C, .cpp/.cc/.cxx to C++ and
.java to Java, and in CompilerApp additionally .h to C and .hpp to C++;
every extension outside these eight yields not-supported, which the
compile and run operations report as a user-visible message with no
process spawned.  CompilerIDEApp's inline dispatch supports exactly the
six non-header extensions and reports all others (including .h)
unsupported without spawning. -/
theorem claim_C3_amended :
    (∀ (ext : String),
      pyLower ext ∉ ([".py", ".c", ".h", ".cpp", ".cc", ".cxx", ".hpp",
        ".java"] : List String) →
      detectLanguage ext = none) ∧
    (∀ (w : World) (p : SPath), detectLanguage p.suffix = none →
      compileWorker w p =
        [Event.compileCall,
         lineEv "========== Compile ==========" "system",
         lineEv ("File: " ++ p.render) "system",
         lineEv "Unsupported file type for compile." "stderr"]) ∧
    (∀ (w : World) (p : SPath), detectLanguage p.suffix = none →
      runWorker w p =
        [lineEv "========== Run ==========" "system",
         lineEv ("File: " ++ p.render) "system",
         lineEv "Unsupported file type for run." "stderr"]) ∧
    (∀ (env : MEnv) (p : SPath),
      pyLower p.suffix ∉ ([".py", ".c", ".cpp", ".cc", ".cxx",
        ".java"] : List String) →
      compileIde env p =
        [MEvent.compileCall, .clear,
         .append ("Compiling " ++ env.rel p ++ "\n\n"),
         .append ("Unsupported file type: " ++ pyLower p.suffix ++ "\n")]) ∧
    (∀ (env : MEnv) (p : SPath),
      pyLower p.suffix ∉ ([".py", ".c", ".cpp", ".cc", ".cxx",
        ".java"] : List String) →
      runIde env p =
        [MEvent.clear,
         .append ("Running " ++ env.rel p ++ "\n\n"),
         .append ("Unsupported file type: " ++ pyLower p.suffix ++ "\n")]) ∧
    detectLanguage ".py" = some Lang.python ∧
    detectLanguage ".c" = some Lang.c ∧
    detectLanguage ".cpp" = some Lang.cpp ∧
    detectLanguage ".cc" = some Lang.cpp ∧
    detectLanguage ".cxx" = some Lang.cpp ∧
    detectLanguage ".java" = some Lang.java ∧
    detectLanguage ".h" = some Lang.c ∧
    detectLanguage ".hpp" = some Lang.cpp ∧
    detectLanguage ".PY" = some Lang.python ∧
    detectLanguage ".Java" = some Lang.java := by
  refine ⟨?_, ?_, ?_, ?_, ?_, by decide, by decide, by decide, by decide,
    by decide, by decide, by decide, by decide, by decide, by decide⟩
  · intro ext h
    simp only [List.mem_cons, List.not_mem_nil, or_false] at h
    push_neg at h
    obtain ⟨hpy, hc, hh, hcpp, hcc, hcxx, hhpp, hjava⟩ := h
    simp [detectLanguage, hpy, hc, hh, hcpp, hcc, hcxx, hhpp, hjava]
  · intro w p h
    simp [compileWorker, h]
  · intro w p h
    simp [runWorker, h]
  · intro env p h
    simp only [List.mem_cons, List.not_mem_nil, or_false] at h
    push_neg at h
    obtain ⟨hpy, hc, hcpp, hcc, hcxx, hjava⟩ := h
    simp [compileIde, hpy, hc, hcpp, hcc, hcxx, hjava]
  · intro env p h
    simp only [List.mem_cons, List.not_mem_nil, or_false] at h
    push_neg at h
    obtain ⟨hpy, hc, hcpp, hcc, hcxx, hjava⟩ := h
    simp [runIde, hpy, hc, hcpp, hcc, hcxx, hjava]

/-- C3, witness: the amended theorem applied to the unknown extension
".txt": the resolver yields none and the run worker reports the
unsupported type without spawning. -/
theorem claim_C3_amended_witness :
    detectLanguage ".txt" = none ∧
    runWorker wAll ⟨"/w", "notes", ".txt"⟩ =
      [lineEv "========== Run ==========" "system",
       lineEv ("File: " ++ SPath.render ⟨"/w", "notes", ".txt"⟩) "system",
       lineEv "Unsupported file type for run." "stderr"] := by
  obtain ⟨hunk, -, hrun, -⟩ := claim_C3_amended
  exact ⟨hunk ".txt" (by decide), hrun wAll _ (hunk ".txt" (by decide))⟩

/-! ## Claim C10 -/

/-- C10: in CompilerApp the language detector additionally maps .h to C
and .hpp to C++ (as does the editor's language dispatch), and a compile
request on a header file invokes the C or C++ toolchain exactly as for a
.c or .cpp file rather than reporting an unsupported type. -/
theorem claim_C10_header_files :
    detectLanguage ".h" = some Lang.c ∧
    detectLanguage ".hpp" = some Lang.cpp ∧
    editorLanguage ".h" = some Lang.c ∧
    editorLanguage ".hpp" = some Lang.cpp ∧
    (∀ (w : World) (p : SPath), p.suffix = ".h" → w.which "gcc" = true →
      compileWorker w p =
        [Event.compileCall,
         lineEv "========== Compile ==========" "system",
         lineEv ("File: " ++ p.render) "system",
         Event.mkdirBuild (buildDirOf p),
         Event.execute ["gcc", p.render, "-O2", "-o", artifactOf p]
           p.parent]) ∧
    (∀ (w : World) (p : SPath), p.suffix = ".hpp" → w.which "g++" = true →
      compileWorker w p =
        [Event.compileCall,
         lineEv "========== Compile ==========" "system",
         lineEv ("File: " ++ p.render) "system",
         Event.mkdirBuild (buildDirOf p),
         Event.execute ["g++", p.render, "-O2", "-o", artifactOf p]
           p.parent]) := by
  refine ⟨by decide, by decide, by decide, by decide, ?_, ?_⟩ <;>
    intro w p hs hw <;>
    simp [compileWorker, hs, hw, (by decide : detectLanguage ".h" = some Lang.c),
      (by decide : detectLanguage ".hpp" = some Lang.cpp)]

/-- C10, witness: compiling a concrete header file with gcc present
produces the C toolchain invocation. -/
theorem claim_C10_witness :
    compileWorker wAll ⟨"/w", "defs", ".h"⟩ =
      [Event.compileCall,
       lineEv "========== Compile ==========" "system",
       lineEv ("File: " ++ SPath.render ⟨"/w", "defs", ".h"⟩) "system",
       Event.mkdirBuild (buildDirOf ⟨"/w", "defs", ".h"⟩),
       Event.execute ["gcc", SPath.render ⟨"/w", "defs", ".h"⟩, "-O2", "-o",
         artifactOf ⟨"/w", "defs", ".h"⟩] "/w"] := by
  obtain ⟨-, -, -, -, hh, -⟩ := claim_C10_header_files
  exact hh wAll _ rfl rfl

/-! ## Claim C1 -/

/-- C1: a compile/run request issued while the running flag is true is
rejected without starting a task (CompilerApp._run_background returns at
once), and after every background task — normal completion, which
includes a child exiting non-zero, or a raised exception — the finally
handler restores Idle: the running flag is false and the toolbar is
re-enabled.  In CompilerIDEApp the finally handler of _run_async
likewise restores Ready/enabled for every outcome, and a button press
while the toolbar is disabled invokes nothing. -/
theorem claim_C1_running_flag :
    (∀ s : DState, s.running = true → runBackground s = (s, false)) ∧
    (∀ (o : Outcome) (tr : List Event),
      (taskWrapper o tr).2.running = false ∧
      (taskWrapper o tr).2.toolbarEnabled = true ∧
      (taskWrapper o tr).2.status = "Ready") ∧
    (∀ o : Outcome,
      runAsyncFinish o = { toolbarEnabled := true, status := "Ready" }) ∧
    (∀ (s : IState) (taskName : String), s.toolbarEnabled = false →
      buttonRequest s taskName = (s, false)) := by
  refine ⟨?_, ?_, ?_, ?_⟩
  · intro s h
    simp [runBackground, h]
  · intro o tr
    cases o <;> simp [taskWrapper, setRunning]
  · intro o
    rfl
  · intro s taskName h
    simp [buttonRequest, h]

/-- C1, witness: a request arriving while Busy is rejected with the
state unchanged; a task that raised still lands in Idle with the toolbar
enabled; a disabled-toolbar button press does nothing. -/
theorem claim_C1_witness :
    runBackground ⟨true, false, "Running..."⟩ =
      (⟨true, false, "Running..."⟩, false) ∧
    (taskWrapper (.raised "boom") []).2.running = false ∧
    (taskWrapper (.raised "boom") []).2.toolbarEnabled = true ∧
    buttonRequest ⟨false, "Compiling…"⟩ "Running" =
      (⟨false, "Compiling…"⟩, false) := by
  obtain ⟨h1, h2, -, h4⟩ := claim_C1_running_flag
  exact ⟨h1 ⟨true, false, "Running..."⟩ rfl,
    (h2 (.raised "boom") []).1, (h2 (.raised "boom") []).2.1,
    h4 ⟨false, "Compiling…"⟩ "Running" rfl⟩

/-! ## Claim C7 -/

/-- C7: a compile or run request on a dirty document prompts before
dispatch; a cancel answer aborts the whole action with no side effects —
the state is returned unchanged (so the running flag never becomes true)
and no worker trace exists (no thread, no process).  In CompilerIDEApp
the askyesno prompt's refusing answer likewise aborts with no
dispatch. -/
theorem claim_C7_cancel_aborts :
    (∀ (s : DState) (active : Option SPath) (w : World),
      actionRun s true active .cancel w = (s, none)) ∧
    (∀ (s : DState) (active : Option SPath) (w : World),
      actionCompile s true active .cancel w = (s, none)) ∧
    (∀ (s : IState) (hasFile : Bool) (env : MEnv) (p : SPath),
      runCurrentFile s hasFile true false env p = (s, none)) := by
  refine ⟨?_, ?_, ?_⟩
  · intro s active w
    simp [actionRun, ensureSaveBeforeAction]
  · intro s active w
    simp [actionCompile, ensureSaveBeforeAction]
  · intro s hasFile env p
    cases hasFile <;> simp [runCurrentFile, ensureCurrentFileSaved]

/-! ## Claim C9 -/

/-- C9, counterexample: the claim says the bytes written on save encode
exactly the current editor content; CompilerIDEApp.save_current_file on
editor content "x" writes "x\n" (editor.get("1.0", END) includes the
trailing newline Tk maintains), while CodeEditor.save_file writes the
content verbatim. -/
theorem claim_C9_counterexample :
    saveCurrentFileIde "x" = "x\n" ∧ ("x\n" : String) ≠ "x" ∧
    saveFileEditor "x" = "x" := by
  exact ⟨by decide, by decide, rfl⟩

/-- C9, amended: CodeEditor.save_file (CompilerApp) writes the editor
content back verbatim; CompilerIDEApp.save_current_file instead writes
the content with one trailing newline appended, except that
whitespace-only content is written as an empty file. -/
theorem claim_C9_amended :
    (∀ content : String, saveFileEditor content = content) ∧
    (∀ content : String,
      saveCurrentFileIde content = "" ∨
      saveCurrentFileIde content = content ++ "\n") ∧
    saveCurrentFileIde "" = "" ∧
    saveCurrentFileIde "  " = "" ∧
    saveCurrentFileIde "x" = "x\n" := by
  refine ⟨fun c => rfl, ?_, by decide, by decide, by decide⟩
  intro c
  simp only [saveCurrentFileIde, tkGetEnd]
  split_ifs <;> simp

/-! ## Claim C8 -/

/-- ConsolePane.write appends the chunk to the eventual delivery
order. -/
lemma delivered_consoleWrite (s : ConsoleState) (t g : String) :
    delivered (consoleWrite s t g) = delivered s ++ [(t, g)] := by
  simp [delivered, consoleWrite]

/-- ConsolePane._flush_queue preserves the eventual delivery order. -/
lemma delivered_consoleFlush (s : ConsoleState) :
    delivered (consoleFlush s) = delivered s := by
  simp [delivered, consoleFlush]

/-- Any number of flush ticks preserves the eventual delivery order. -/
lemma delivered_flushes (ops : List SinkOp)
    (h : ∀ op ∈ ops, op = SinkOp.flush) (s : ConsoleState) :
    delivered (applySinkOps s ops) = delivered s := by
  induction ops generalizing s with
  | nil => rfl
  | cons op rest ih =>
    have hop : op = SinkOp.flush := h op (List.mem_cons_self op rest)
    subst hop
    have hstep : applySinkOps s (SinkOp.flush :: rest) =
        applySinkOps (consoleFlush s) rest := rfl
    rw [hstep, ih (fun o ho => h o (List.mem_cons_of_mem _ ho)),
      delivered_consoleFlush]

/-- C8: two writes issued in order from the same task — "A" tagged
system then "B" tagged stdout — reach the visible surface in that order,
whatever flush ticks of the UI thread are interleaved or follow, and
whatever was queued before.  CompilerIDEApp's after(0) hand-off likewise
appends in FIFO order. -/
theorem claim_C8_sink_order :
    (∀ (s : ConsoleState) (ops1 ops2 : List SinkOp),
      (∀ op ∈ ops1, op = SinkOp.flush) →
      (∀ op ∈ ops2, op = SinkOp.flush) →
      (applySinkOps s
        ([SinkOp.write "A" "system"] ++ ops1 ++ [SinkOp.write "B" "stdout"] ++
          ops2 ++ [SinkOp.flush])).surface =
        delivered s ++ [("A", "system"), ("B", "stdout")]) ∧
    (∀ pending : List String,
      callUiEnqueue (callUiEnqueue pending "A") "B" = pending ++ ["A", "B"]) := by
  constructor
  · intro s ops1 ops2 h1 h2
    have e1 : applySinkOps s
        ([SinkOp.write "A" "system"] ++ ops1 ++ [SinkOp.write "B" "stdout"] ++
          ops2 ++ [SinkOp.flush]) =
        consoleFlush (applySinkOps
          (consoleWrite (applySinkOps (consoleWrite s "A" "system") ops1)
            "B" "stdout") ops2) := by
      simp only [applySinkOps, List.foldl_append, List.foldl_cons,
        List.foldl_nil]
      rfl
    rw [e1]
    show delivered (applySinkOps
        (consoleWrite (applySinkOps (consoleWrite s "A" "system") ops1)
          "B" "stdout") ops2) = _
    rw [delivered_flushes ops2 h2, delivered_consoleWrite,
      delivered_flushes ops1 h1, delivered_consoleWrite, List.append_assoc]
    rfl
  · intro pending
    simp [callUiEnqueue]

/-- C8, witness: starting from an empty sink, write "A", let the UI
thread flush, write "B", flush again: the surface reads A then B. -/
theorem claim_C8_witness :
    (applySinkOps ⟨[], []⟩
      ([SinkOp.write "A" "system"] ++ [SinkOp.flush] ++
        [SinkOp.write "B" "stdout"] ++ [] ++ [SinkOp.flush])).surface =
      [("A", "system"), ("B", "stdout")] := by
  obtain ⟨h1, -⟩ := claim_C8_sink_order
  have := h1 ⟨[], []⟩ [SinkOp.flush] [] (by simp) (by simp)
  simpa [delivered] using this

/-! ## Claim C6 -/

/-- C6, counterexample: the claim says every executed command's raw exit
code is echoed verbatim as "[exit <code>]"; CompilerIDEApp's
_handle_completed_process echoes "[exit code 0]" for exit code 0 — the
claimed "[exit 0]" text does not occur in the line it appends. -/
theorem claim_C6_counterexample :
    handleCompleted ⟨"", "", 0⟩ = [MEvent.append "\n[exit code 0]\n"] ∧
    ¬ ("[exit 0]".data <:+: "\n[exit code 0]\n".data) := by
  exact ⟨by decide, by decide⟩

/-- C6, amended: neither executor raises past its boundary.  A completed
child of any exit code is a normal result: CompilerApp._execute_command
echoes the captured streams and the raw code as "[exit <code>]", while
CompilerIDEApp._handle_completed_process echoes it as
"[exit code <code>]".  A spawn-level failure produces a distinct
execution-error line ("Execution failed: ..." / "Error: ..."): the
ok-trace and the error-trace are never equal. -/
theorem claim_C6_amended :
    (∀ (r : ProcResult) (cmd : List String),
      lineEv ("[exit " ++ toString r.code ++ "]") "system" ∈
        executeCommand (Except.ok r) cmd) ∧
    (∀ (e : String) (cmd : List String),
      executeCommand (Except.error e) cmd =
        [lineEv ("$ " ++ String.intercalate " " (cmd.map quoteArg)) "system",
         lineEv ("Execution failed: " ++ e) "stderr"]) ∧
    (∀ (r : ProcResult) (cmd : List String) (e : String),
      executeCommand (Except.ok r) cmd ≠ executeCommand (Except.error e) cmd) ∧
    (∀ r : ProcResult,
      MEvent.append ("\n[exit code " ++ toString r.code ++ "]\n") ∈
        handleCompleted r) ∧
    (∀ (env : MEnv) (cmd : List String) (cwd : String)
      (rest : ProcResult → List MEvent) (e : String),
      env.spawn cmd = Except.error e →
      runProc env cmd cwd rest =
        [MEvent.exec cmd cwd, MEvent.append ("Error: " ++ e ++ "\n")]) ∧
    (∀ (env : MEnv) (cmd : List String) (cwd : String)
      (rest : ProcResult → List MEvent) (r : ProcResult),
      env.spawn cmd = Except.ok r →
      runProc env cmd cwd rest =
        MEvent.exec cmd cwd :: (handleCompleted r ++ rest r)) := by
  refine ⟨?_, ?_, ?_, ?_, ?_, ?_⟩
  · intro r cmd
    simp [executeCommand]
  · intro e cmd
    rfl
  · intro r cmd e h
    simp only [executeCommand] at h
    rw [List.cons.injEq] at h
    obtain ⟨-, h⟩ := h
    split_ifs at h <;> simp [lineEv] at h
  · intro r
    simp [handleCompleted]
  · intro env cmd cwd rest e h
    simp [runProc, h]
  · intro env cmd cwd rest r h
    simp [runProc, h]

/-- C6, witness: a spawn failure becomes an execution-error line, and a
normal exit 0 is surfaced as the raw exit line. -/
theorem claim_C6_amended_witness :
    runProc envSpawnFail [exeOf pC] "/w" (fun _ => []) =
      [MEvent.exec [exeOf pC] "/w",
       MEvent.append "Error: No such file or directory\n"] ∧
    lineEv ("[exit " ++ toString (0 : Int) ++ "]") "system" ∈
      executeCommand (Except.ok ⟨"", "", 0⟩) ["prog"] := by
  obtain ⟨ha, -, -, -, he, -⟩ := claim_C6_amended
  exact ⟨he envSpawnFail [exeOf pC] "/w" (fun _ => [])
    "No such file or directory" rfl, ha ⟨"", "", 0⟩ ["prog"]⟩

/-! ## Claim C5 -/

/-- C5: when the required compiler or runtime is absent from the
executable search path, both applications detect it via shutil.which
before any spawn, emit a distinct tool-missing message, and attempt no
spawn: the full traces contain no execute/exec event.  (Python needs no
search-path lookup: its interpreter is sys.executable, the one running
the application.) -/
theorem claim_C5_tool_missing :
    (∀ (w : World) (p : SPath), detectLanguage p.suffix = some Lang.c →
      w.which "gcc" = false →
      compileWorker w p =
        [Event.compileCall,
         lineEv "========== Compile ==========" "system",
         lineEv ("File: " ++ p.render) "system",
         lineEv "gcc not found in PATH" "stderr"]) ∧
    (∀ (w : World) (p : SPath), detectLanguage p.suffix = some Lang.cpp →
      w.which "g++" = false →
      compileWorker w p =
        [Event.compileCall,
         lineEv "========== Compile ==========" "system",
         lineEv ("File: " ++ p.render) "system",
         lineEv "g++ not found in PATH" "stderr"]) ∧
    (∀ (w : World) (p : SPath), detectLanguage p.suffix = some Lang.java →
      w.which "javac" = false →
      compileWorker w p =
        [Event.compileCall,
         lineEv "========== Compile ==========" "system",
         lineEv ("File: " ++ p.render) "system",
         lineEv "javac not found in PATH" "stderr"]) ∧
    (∀ (w : World) (p : SPath), detectLanguage p.suffix = some Lang.java →
      w.which "java" = false →
      runWorker w p =
        [lineEv "========== Run ==========" "system",
         lineEv ("File: " ++ p.render) "system",
         lineEv "java runtime not found in PATH" "stderr"]) ∧
    (∀ (w : World) (p : SPath), detectLanguage p.suffix = some Lang.c →
      w.which "gcc" = false → w.exists1 = false → w.exists2 = false →
      (∀ (cmd : List String) (cwd : String),
        Event.execute cmd cwd ∉ runWorker w p) ∧
      lineEv "gcc not found in PATH" "stderr" ∈ runWorker w p) ∧
    (∀ (env : MEnv) (p : SPath), pyLower p.suffix = ".c" →
      env.which "gcc" = false →
      compileIde env p =
        [MEvent.compileCall, .clear,
         .append ("Compiling " ++ env.rel p ++ "\n\n"),
         .append "gcc not found. Please install GCC.\n"]) ∧
    (∀ (env : MEnv) (p : SPath), pyLower p.suffix = ".cpp" →
      env.which "g++" = false →
      compileIde env p =
        [MEvent.compileCall, .clear,
         .append ("Compiling " ++ env.rel p ++ "\n\n"),
         .append "g++ not found. Please install G++.\n"]) ∧
    (∀ (env : MEnv) (p : SPath), pyLower p.suffix = ".java" →
      env.which "javac" = false →
      compileIde env p =
        [MEvent.compileCall, .clear,
         .append ("Compiling " ++ env.rel p ++ "\n\n"),
         .append "javac not found. Please install JDK.\n"]) ∧
    (∀ (env : MEnv) (p : SPath), pyLower p.suffix = ".java" →
      env.which "java" = false →
      runIde env p =
        [MEvent.clear,
         .append ("Running " ++ env.rel p ++ "\n\n"),
         .append "java runtime not found. Please install JDK/JRE.\n"]) ∧
    (∀ (env : MEnv) (p : SPath), pyLower p.suffix = ".c" →
      env.which "gcc" = false → env.exists1 = false → env.exists2 = false →
      (∀ (cmd : List String) (cwd : String),
        MEvent.exec cmd cwd ∉ runIde env p) ∧
      MEvent.append "gcc not found. Please install GCC.\n" ∈ runIde env p) := by
  refine ⟨?_, ?_, ?_, ?_, ?_, ?_, ?_, ?_, ?_, ?_⟩
  · intro w p hL hw
    simp [compileWorker, hL, hw]
  · intro w p hL hw
    simp [compileWorker, hL, hw]
  · intro w p hL hw
    simp [compileWorker, hL, hw]
  · intro w p hL hw
    simp [runWorker, hL, hw]
  · intro w p hL hw h1 h2
    constructor
    · intro cmd cwd
      simp [runWorker, compileWorker, hL, hw, h1, h2, lineEv]
    · simp [runWorker, compileWorker, hL, hw, h1, h2]
  · intro env p hx hw
    simp [compileIde, hx, hw]
  · intro env p hx hw
    simp [compileIde, hx, hw]
  · intro env p hx hw
    simp [compileIde, hx, hw]
  · intro env p hx hw
    simp [runIde, hx, hw]
  · intro env p hx hw h1 h2
    constructor
    · intro cmd cwd
      simp [runIde, compileIde, hx, hw, h1, h2]
    · simp [runIde, compileIde, hx, hw, h1, h2]

/-- C5, witness: with an empty PATH, compiling a concrete C file and
running a concrete Java file emit tool-missing messages and spawn
nothing. -/
theorem claim_C5_witness :
    compileWorker wBare pC =
      [Event.compileCall,
       lineEv "========== Compile ==========" "system",
       lineEv ("File: " ++ pC.render) "system",
       lineEv "gcc not found in PATH" "stderr"] ∧
    runWorker wBare pJava =
      [lineEv "========== Run ==========" "system",
       lineEv ("File: " ++ pJava.render) "system",
       lineEv "java runtime not found in PATH" "stderr"] ∧
    (∀ (cmd : List String) (cwd : String),
      MEvent.exec cmd cwd ∉ runIde envBare pC) := by
  obtain ⟨hc, -, -, hjr, -, -, -, -, -, hm⟩ := claim_C5_tool_missing
  exact ⟨hc wBare pC (by decide) rfl, hjr wBare pJava (by decide) rfl,
    (hm envBare pC (by decide) rfl rfl rfl).1⟩

/-! ## Claim C2 -/

/-- Exec events of a spawn with empty continuation, as an equivalence
usable for rewriting. -/
lemma exec_mem_runProc_nil_iff (env : MEnv) (cmd : List String)
    (cwd : String) (c2 : List String) (w2 : String) :
    MEvent.exec c2 w2 ∈ runProc env cmd cwd (fun _ => []) ↔
      (c2 = cmd ∧ w2 = cwd) := by
  constructor
  · exact exec_mem_runProc_nil env cmd cwd c2 w2
  · rintro ⟨rfl, rfl⟩
    rcases hs : env.spawn c2 with e | r <;> simp [runProc, hs]

/-- Exec events of the Python compile spawn, as an equivalence. -/
lemma exec_mem_runProc_py_iff (env : MEnv) (cmd : List String)
    (cwd : String) (c2 : List String) (w2 : String) :
    MEvent.exec c2 w2 ∈ runProc env cmd cwd (fun r =>
      if r.code = 0 then [MEvent.append "\nPython byte-compile successful.\n"]
      else []) ↔ (c2 = cmd ∧ w2 = cwd) := by
  constructor
  · exact exec_mem_runProc_py env cmd cwd c2 w2
  · rintro ⟨rfl, rfl⟩
    rcases hs : env.spawn c2 with e | r <;> simp [runProc, hs]

/-- A spawn with empty continuation contributes no compile-step
invocation. -/
lemma count_compileCall_runProc_nil (env : MEnv) (cmd : List String)
    (cwd : String) :
    (runProc env cmd cwd (fun _ => [])).count MEvent.compileCall = 0 :=
  List.count_eq_zero.mpr (compileCall_not_mem_runProc_nil env cmd cwd)

/-- The Python compile spawn contributes no compile-step invocation. -/
lemma count_compileCall_runProc_py (env : MEnv) (cmd : List String)
    (cwd : String) :
    (runProc env cmd cwd (fun r =>
      if r.code = 0 then [MEvent.append "\nPython byte-compile successful.\n"]
      else [])).count MEvent.compileCall = 0 :=
  List.count_eq_zero.mpr (compileCall_not_mem_runProc_py env cmd cwd)

/-- C2, counterexample: running a Java file in CompilerApp with the
class file absent at both stat calls invokes the compile step once and
then still executes the java run command — the source never rechecks the
class file after compiling, contradicting "never executes the run
command if the artifact is still absent after that compile step". -/
theorem claim_C2_counterexample :
    wAll.exists1 = false ∧ wAll.exists2 = false ∧
    compileCount (runWorker wAll pJava) = 1 ∧
    Event.execute ["java", "-cp", "/w", "Main"] "/w" ∈
      runWorker wAll pJava := by
  exact ⟨rfl, rfl, by decide, by decide⟩

/-- C2, amended: when the run operation finds the compiled artifact
absent it invokes the compile step exactly once before attempting run —
in both applications and for all of C, C++ and Java.  For C and C++ in
both applications, and for Java in CompilerIDEApp, the run command is
not executed if the artifact is still absent after that compile step;
CompilerApp's Java run instead executes the java command
unconditionally after the compile step. -/
theorem claim_C2_amended :
    (∀ (w : World) (p : SPath), detectLanguage p.suffix = some Lang.c →
      w.exists1 = false → compileCount (runWorker w p) = 1) ∧
    (∀ (w : World) (p : SPath), detectLanguage p.suffix = some Lang.cpp →
      w.exists1 = false → compileCount (runWorker w p) = 1) ∧
    (∀ (w : World) (p : SPath),
      (detectLanguage p.suffix = some Lang.c ∨
        detectLanguage p.suffix = some Lang.cpp) →
      w.exists2 = false →
      Event.execute [artifactOf p] (buildDirOf p) ∉ runWorker w p) ∧
    (∀ (w : World) (p : SPath), detectLanguage p.suffix = some Lang.java →
      w.which "java" = true → w.exists1 = false →
      compileCount (runWorker w p) = 1 ∧
      Event.execute ["java", "-cp", p.parent, p.stem] p.parent ∈
        runWorker w p) ∧
    (∀ (env : MEnv) (p : SPath), pyLower p.suffix = ".c" →
      env.exists1 = false → mCompileCount (runIde env p) = 1) ∧
    (∀ (env : MEnv) (p : SPath),
      (pyLower p.suffix = ".cpp" ∨ pyLower p.suffix = ".cc" ∨
        pyLower p.suffix = ".cxx") →
      env.exists1 = false → mCompileCount (runIde env p) = 1) ∧
    (∀ (env : MEnv) (p : SPath), pyLower p.suffix = ".java" →
      env.which "java" = true → env.exists1 = false →
      mCompileCount (runIde env p) = 1) ∧
    (∀ (env : MEnv) (p : SPath) (cwd : String),
      (pyLower p.suffix = ".c" ∨ pyLower p.suffix = ".cpp" ∨
        pyLower p.suffix = ".cc" ∨ pyLower p.suffix = ".cxx") →
      env.exists2 = false →
      MEvent.exec [exeOf p] cwd ∉ runIde env p) ∧
    (∀ (env : MEnv) (p : SPath) (cwd : String),
      pyLower p.suffix = ".java" → env.exists2 = false →
      MEvent.exec ["java", "-cp", ".", p.stem] cwd ∉ runIde env p) := by
  refine ⟨?_, ?_, ?_, ?_, ?_, ?_, ?_, ?_, ?_⟩
  · intro w p hL h1
    cases hW : w.which "gcc" <;> cases hE : w.exists2 <;>
      simp [compileCount, runWorker, compileWorker, hL, h1, hW, hE,
        List.count_cons, List.count_append, lineEv]
  · intro w p hL h1
    cases hW : w.which "g++" <;> cases hE : w.exists2 <;>
      simp [compileCount, runWorker, compileWorker, hL, h1, hW, hE,
        List.count_cons, List.count_append, lineEv]
  · intro w p hL h2
    rcases hL with hL | hL <;>
      cases hE1 : w.exists1 <;>
      cases hW : w.which "gcc" <;>
      cases hW2 : w.which "g++" <;>
      simp [runWorker, compileWorker, hL, h2, hE1, hW, hW2, lineEv]
  · intro w p hL hw h1
    constructor
    · cases hW : w.which "javac" <;>
        simp [compileCount, runWorker, compileWorker, hL, hw, h1, hW,
          List.count_cons, List.count_append, lineEv]
    · cases hW : w.which "javac" <;>
        simp [runWorker, compileWorker, hL, hw, h1, hW, lineEv]
  · intro env p hx h1
    cases hW : env.which "gcc" <;> cases hE : env.exists2 <;>
      simp [mCompileCount, runIde, compileIde, hx, h1, hW, hE,
        List.count_cons, List.count_append, count_compileCall_runProc_nil,
        dollarLine]
  · intro env p hx h1
    rcases hx with hx | hx | hx <;>
      cases hW : env.which "g++" <;> cases hE : env.exists2 <;>
      simp [mCompileCount, runIde, compileIde, hx, h1, hW, hE,
        List.count_cons, List.count_append, count_compileCall_runProc_nil,
        dollarLine]
  · intro env p hx hw h1
    cases hW : env.which "javac" <;> cases hE : env.exists2 <;>
      simp [mCompileCount, runIde, compileIde, hx, hw, h1, hW, hE,
        List.count_cons, List.count_append, count_compileCall_runProc_nil,
        dollarLine]
  · intro env p cwd hx h2
    rcases hx with hx | hx | hx | hx <;>
      cases hE1 : env.exists1 <;>
      cases hW : env.which "gcc" <;>
      cases hW2 : env.which "g++" <;>
      simp [runIde, compileIde, hx, h2, hE1, hW, hW2, dollarLine,
        exec_mem_runProc_nil_iff, exec_mem_runProc_py_iff]
  · intro env p cwd hx h2
    cases hE1 : env.exists1 <;>
      cases hW : env.which "java" <;>
      cases hWc : env.which "javac" <;>
      simp [runIde, compileIde, hx, h2, hE1, hW, hWc, dollarLine,
        exec_mem_runProc_nil_iff, exec_mem_runProc_py_iff]

/-- C2, witness: a concrete C file with the artifact absent at both stat
calls: the compile step runs exactly once and the artifact is never
executed, in both applications. -/
theorem claim_C2_amended_witness :
    compileCount (runWorker wAll pC) = 1 ∧
    Event.execute [artifactOf pC] (buildDirOf pC) ∉ runWorker wAll pC ∧
    mCompileCount (runIde envSpawnFail pC) = 1 ∧
    MEvent.exec [exeOf pC] "/w" ∉ runIde envSpawnFail pC := by
  obtain ⟨hc, -, hg, -, hmc, -, -, hmg, -⟩ := claim_C2_amended
  exact ⟨hc wAll pC (by decide) rfl, hg wAll pC (Or.inl (by decide)) rfl,
    hmc envSpawnFail pC (by decide) rfl,
    hmg envSpawnFail pC "/w" (Or.inl (by decide)) rfl⟩

/-! ## Claim C4 -/

/-- Every spawn in CompilerIDEApp._compile uses the source file's parent
directory as its working directory. -/
lemma exec_mem_compileIde_cwd (env : MEnv) (p : SPath) (c2 : List String)
    (w2 : String) (hm : MEvent.exec c2 w2 ∈ compileIde env p) :
    w2 = p.parent := by
  simp only [compileIde] at hm
  split_ifs at hm <;>
    simp [dollarLine, exec_mem_runProc_nil_iff, exec_mem_runProc_py_iff]
      at hm <;>
    tauto

/-- Every spawn in CompilerIDEApp._run uses the source file's parent
directory as its working directory. -/
lemma exec_mem_runIde_cwd (env : MEnv) (p : SPath) (c2 : List String)
    (w2 : String) (hm : MEvent.exec c2 w2 ∈ runIde env p) :
    w2 = p.parent := by
  have hc := fun hmm => exec_mem_compileIde_cwd env p c2 w2 hmm
  simp only [runIde] at hm
  split_ifs at hm <;>
    simp [dollarLine, exec_mem_runProc_nil_iff, exec_mem_runProc_py_iff]
      at hm <;>
    tauto

/-- C4, counterexample: the claim says every spawned command's working
directory is the source file's parent; CompilerApp._run_worker executes
a C artifact with the build subdirectory as its working directory, which
differs from the parent. -/
theorem claim_C4_counterexample :
    Event.execute [artifactOf pC] (buildDirOf pC) ∈ runWorker wBuilt pC ∧
    buildDirOf pC ≠ pC.parent := by
  exact ⟨by decide, by decide⟩

/-- C4, amended: every command spawned by either application runs with
the source file's parent directory as its working directory, with one
exception: CompilerApp's C/C++ artifact execution, which runs the
artifact from the build subdirectory. -/
theorem claim_C4_amended :
    (∀ (w : World) (p : SPath) (cmd : List String) (cwd : String),
      Event.execute cmd cwd ∈ compileWorker w p → cwd = p.parent) ∧
    (∀ (w : World) (p : SPath) (cmd : List String) (cwd : String),
      Event.execute cmd cwd ∈ runWorker w p →
      cwd = p.parent ∨ (cwd = buildDirOf p ∧ cmd = [artifactOf p])) ∧
    (∀ (env : MEnv) (p : SPath) (cmd : List String) (cwd : String),
      MEvent.exec cmd cwd ∈ compileIde env p → cwd = p.parent) ∧
    (∀ (env : MEnv) (p : SPath) (cmd : List String) (cwd : String),
      MEvent.exec cmd cwd ∈ runIde env p → cwd = p.parent) := by
  refine ⟨?_, ?_, fun env p cmd cwd hm => exec_mem_compileIde_cwd env p cmd cwd hm,
    fun env p cmd cwd hm => exec_mem_runIde_cwd env p cmd cwd hm⟩
  · intro w p cmd cwd hm
    rcases hL : detectLanguage p.suffix with - | L
    · simp [compileWorker, hL, lineEv] at hm
    · cases L <;>
        cases hW : w.which "gcc" <;>
        cases hW2 : w.which "g++" <;>
        cases hW3 : w.which "javac" <;>
        simp [compileWorker, hL, hW, hW2, hW3, lineEv] at hm <;>
        tauto
  · intro w p cmd cwd hm
    rcases hL : detectLanguage p.suffix with - | L
    · simp [runWorker, hL, lineEv] at hm
    · cases L
      case python =>
        simp [runWorker, hL, lineEv] at hm
        tauto
      case c =>
        cases hE1 : w.exists1 <;> cases hE2 : w.exists2 <;>
          cases hW : w.which "gcc" <;>
          simp [runWorker, compileWorker, hL, hE1, hE2, hW, lineEv] at hm <;>
          tauto
      case cpp =>
        cases hE1 : w.exists1 <;> cases hE2 : w.exists2 <;>
          cases hW : w.which "g++" <;>
          simp [runWorker, compileWorker, hL, hE1, hE2, hW, lineEv] at hm <;>
          tauto
      case java =>
        cases hW : w.which "java" <;> cases hE1 : w.exists1 <;>
          cases hWc : w.which "javac" <;>
          simp [runWorker, compileWorker, hL, hW, hE1, hWc, lineEv] at hm <;>
          tauto

/-- C4, witness: the amended theorem applied to concrete spawns — the
Python compile spawn runs in the parent directory, and the C artifact
execution lands in the build-directory exception. -/
theorem claim_C4_amended_witness :
    (("/w" : String) = (SPath.parent ⟨"/w", "hello", ".py"⟩)) ∧
    (buildDirOf pC = pC.parent ∨
      (buildDirOf pC = buildDirOf pC ∧ [artifactOf pC] = [artifactOf pC])) := by
  obtain ⟨ha, hb, -, -⟩ := claim_C4_amended
  exact ⟨ha wAll ⟨"/w", "hello", ".py"⟩
      [wAll.pyExe, "-m", "py_compile", SPath.render ⟨"/w", "hello", ".py"⟩]
      "/w" (by decide),
    hb wBuilt pC [artifactOf pC] (buildDirOf pC) (by decide)⟩

end Compiler
